import Mathlib

/-
Shallow embedding of the monitoring core of the acc-backend repository
(services/monitoringService.js together with the mongoose schemas in
src/models and the alert endpoints of controllers/vmController.js).

JS numbers are modelled as rationals; timestamps are integers counting
milliseconds.  Math.random() draws are passed in explicitly as rational
parameters assumed to lie in [0,1).  Persistence collections are lists of
schema-shaped documents inside a MonState record; mongoose saves in strict
mode keep only schema paths, which the document structures mirror.
-/

namespace AccBackend

/-- Stand-in for the JS Number.prototype.toFixed rendering used only to
build alert message strings; no verified property depends on the exact
digits rendered. -/
def toFixed (_digits : Nat) (q : ℚ) : String := toString q

/-- The timeRanges lookup table shared by getVMMetrics, getSystemMetrics
and getPerformanceSummary: maps a range keyword to a duration in
milliseconds; an unknown keyword yields undefined (none). -/
def timeRanges (timeRange : String) : Option Int :=
  if timeRange = "1h" then some (60 * 60 * 1000)
  else if timeRange = "24h" then some (24 * 60 * 60 * 1000)
  else if timeRange = "7d" then some (7 * 24 * 60 * 60 * 1000)
  else if timeRange = "30d" then some (30 * 24 * 60 * 60 * 1000)
  else none

/-- A VM document (models/VM.js).  The schema has timestamps enabled, so
createdAt is always present on a saved document. -/
structure VMDoc where
  id : Nat
  name : String
  status : String
  createdAtMs : Int
  deriving DecidableEq, Repr

/-- The ten Math.random() draws consumed by one generateVMMetrics call,
in source order. -/
structure RandomDraws where
  rBase : ℚ
  rCpuJitter : ℚ
  rMemJitter : ℚ
  rDisk : ℚ
  rNetIn : ℚ
  rNetOut : ℚ
  rDiskRead : ℚ
  rDiskWrite : ℚ
  rResp : ℚ
  rErr : ℚ
  deriving DecidableEq, Repr

/-- Every Math.random() result lies in [0,1). -/
def RandomDraws.valid (r : RandomDraws) : Prop :=
  (0 ≤ r.rBase ∧ r.rBase < 1) ∧ (0 ≤ r.rCpuJitter ∧ r.rCpuJitter < 1) ∧
  (0 ≤ r.rMemJitter ∧ r.rMemJitter < 1) ∧ (0 ≤ r.rDisk ∧ r.rDisk < 1) ∧
  (0 ≤ r.rNetIn ∧ r.rNetIn < 1) ∧ (0 ≤ r.rNetOut ∧ r.rNetOut < 1) ∧
  (0 ≤ r.rDiskRead ∧ r.rDiskRead < 1) ∧ (0 ≤ r.rDiskWrite ∧ r.rDiskWrite < 1) ∧
  (0 ≤ r.rResp ∧ r.rResp < 1) ∧ (0 ≤ r.rErr ∧ r.rErr < 1)

instance (r : RandomDraws) : Decidable r.valid := by
  unfold RandomDraws.valid; infer_instance

/-- The in-memory reading returned by MonitoringService.generateVMMetrics
before any save (all fields of the returned object literal). -/
structure MetricsReading where
  cpuUsage : ℚ
  memoryUsage : ℚ
  diskUsage : ℚ
  networkIn : ℚ
  networkOut : ℚ
  diskRead : ℚ
  diskWrite : ℚ
  uptime : Int
  status : String
  responseTime : ℚ
  errorRate : ℚ
  deriving DecidableEq, Repr

/-- MonitoringService.generateVMMetrics.  hourOfDay is the local hour
taken from new Date().getHours(); nowMs is Date.now().  Note that cpu and
memory are clamped only from above by Math.min(100, _) while the jitter
terms can be negative. -/
def generateVMMetrics (r : RandomDraws) (hourOfDay : Int) (nowMs : Int) (vm : VMDoc) :
    MetricsReading :=
  let baseLoad := r.rBase * 50
  let isBusinessHours : Bool := decide (9 ≤ hourOfDay) && decide (hourOfDay ≤ 17)
  let loadMultiplier : ℚ := if isBusinessHours then 3/2 else 4/5
  { cpuUsage := min 100 (baseLoad * loadMultiplier + (r.rCpuJitter * 20 - 10))
    memoryUsage := min 100 ((baseLoad * (4/5)) * loadMultiplier + (r.rMemJitter * 15 - 15/2))
    diskUsage := min 100 (30 + r.rDisk * 40)
    networkIn := ((⌊r.rNetIn * 1000 + 100⌋ : ℤ) : ℚ)
    networkOut := ((⌊r.rNetOut * 500 + 50⌋ : ℤ) : ℚ)
    diskRead := ((⌊r.rDiskRead * 100 + 10⌋ : ℤ) : ℚ)
    diskWrite := ((⌊r.rDiskWrite * 50 + 5⌋ : ℤ) : ℚ)
    uptime := Int.fdiv nowMs 1000 - Int.fdiv vm.createdAtMs 1000
    status := vm.status
    responseTime := ((⌊r.rResp * 50 + 10⌋ : ℤ) : ℚ)
    errorRate := r.rErr * (1/20) }

/-- A transient candidate alert event as pushed by checkForAlerts. -/
structure AlertEvent where
  type : String
  severity : String
  message : String
  value : ℚ
  deriving DecidableEq, Repr

/-- The pure part of MonitoringService.checkForAlerts: the ordered list of
candidate alert events built from one reading (the source then feeds each
event to createAlert; that save loop is modelled separately). -/
def checkForAlerts (metrics : MetricsReading) : List AlertEvent :=
  (if 90 < metrics.cpuUsage then
    [{ type := "cpu_high", severity := "critical",
       message := "High CPU usage: " ++ toFixed 1 metrics.cpuUsage ++ "%",
       value := metrics.cpuUsage }]
   else if 75 < metrics.cpuUsage then
    [{ type := "cpu_high", severity := "warning",
       message := "Elevated CPU usage: " ++ toFixed 1 metrics.cpuUsage ++ "%",
       value := metrics.cpuUsage }]
   else [])
  ++ (if 95 < metrics.memoryUsage then
    [{ type := "memory_high", severity := "critical",
       message := "Critical memory usage: " ++ toFixed 1 metrics.memoryUsage ++ "%",
       value := metrics.memoryUsage }]
   else if 85 < metrics.memoryUsage then
    [{ type := "memory_high", severity := "warning",
       message := "High memory usage: " ++ toFixed 1 metrics.memoryUsage ++ "%",
       value := metrics.memoryUsage }]
   else [])
  ++ (if 95 < metrics.diskUsage then
    [{ type := "disk_full", severity := "critical",
       message := "Disk almost full: " ++ toFixed 1 metrics.diskUsage ++ "%",
       value := metrics.diskUsage }]
   else [])
  ++ (if 1/50 < metrics.errorRate then
    [{ type := "error_rate_high", severity := "warning",
       message := "High error rate: " ++ toFixed 2 (metrics.errorRate * 100) ++ "%",
       value := metrics.errorRate }]
   else [])

/-- The cpu_high events among the candidates of one reading. -/
def cpuHighEvents (metrics : MetricsReading) : List AlertEvent :=
  (checkForAlerts metrics).filter (fun e => e.type == "cpu_high")

/-- A persisted VMMetrics document (models/VMMetrics.js).  Mongoose strict
mode keeps only schema paths on save, so the reading fields networkIn,
networkOut, diskRead, diskWrite, uptime, responseTime and errorRate are
discarded: they are not schema paths.  memoryUsedMB, diskUsedMB,
networkInMbps and networkOutMbps are schema paths no code path writes. -/
structure VMMetricsDoc where
  vmId : Nat
  timestamp : Int
  cpuUsage : ℚ
  memoryUsage : ℚ
  memoryUsedMB : Option ℚ
  diskUsage : ℚ
  diskUsedMB : Option ℚ
  networkInMbps : Option ℚ
  networkOutMbps : Option ℚ
  status : String
  deriving DecidableEq, Repr

/-- The schema validators of models/VMMetrics.js: cpuUsage, memoryUsage
and diskUsage carry min 0 and max 100; a save of a document violating
them fails mongoose validation. -/
def vmMetricsDocValid (m : VMMetricsDoc) : Bool :=
  decide (0 ≤ m.cpuUsage) && decide (m.cpuUsage ≤ 100) &&
  decide (0 ≤ m.memoryUsage) && decide (m.memoryUsage ≤ 100) &&
  decide (0 ≤ m.diskUsage) && decide (m.diskUsage ≤ 100)

/-- The VMMetrics document that saveVMMetrics builds from a reading: the
schema paths of the spread reading plus the timestamp. -/
def toVMMetricsDoc (vmId : Nat) (now : Int) (metrics : MetricsReading) : VMMetricsDoc :=
  { vmId := vmId
    timestamp := now
    cpuUsage := metrics.cpuUsage
    memoryUsage := metrics.memoryUsage
    memoryUsedMB := none
    diskUsage := metrics.diskUsage
    diskUsedMB := none
    networkInMbps := none
    networkOutMbps := none
    status := metrics.status }

/-- A persisted SystemAlert document (models/SystemAlert.js).  The Mixed
metadata sub-document is modelled by the four metadata fields createAlert
writes into it.  createdAt comes from the timestamps option. -/
structure SystemAlertDoc where
  id : Nat
  vmId : Option Nat
  type : Option String
  severity : Option String
  level : String
  title : String
  message : String
  currentValue : Option ℚ
  count : Nat
  resolved : Bool
  resolvedAt : Option Int
  resolvedBy : Option String
  lastSeen : Int
  metadataCurrentValue : Option ℚ
  metadataCount : Option Nat
  metadataResolved : Option Bool
  metadataLastSeen : Option Int
  createdAt : Int
  deriving DecidableEq, Repr

/-- The aggregate snapshot computed by collectSystemMetrics.  The fields
read from the 5-minute rolling aggregate default to 0 when the aggregate
returns no row or a null value. -/
structure SystemMetricsSnapshot where
  totalVMs : Nat
  runningVMs : Nat
  stoppedVMs : Nat
  errorVMs : Nat
  systemLoad : ℚ
  memoryUtilization : ℚ
  networkThroughputIn : ℚ
  networkThroughputOut : ℚ
  averageResponseTime : ℚ
  systemErrorRate : ℚ
  timestamp : Int
  deriving DecidableEq, Repr

/-- A persisted PerformanceMetrics document (models/PerformanceMetrics.js).
The category field models the top-level path that getSystemMetrics
queries; the schema declares no such path and no write in the repository
sets it, so it is none on every document this code creates (the category
marker goes into the metadata sub-document instead). -/
structure PerformanceMetricsDoc where
  timestamp : Int
  operation : String
  durationMs : Int
  success : Bool
  errorMessage : Option String
  category : Option String
  metadataCategory : Option String
  metadataMetrics : Option SystemMetricsSnapshot
  deriving DecidableEq, Repr

/-- The persistence state the monitoring service reads and writes: one
list per collection, in insertion order, plus the id counter for new
SystemAlert documents. -/
structure MonState where
  vms : List VMDoc
  vmMetrics : List VMMetricsDoc
  systemAlerts : List SystemAlertDoc
  performanceMetrics : List PerformanceMetricsDoc
  nextAlertId : Nat
  deriving DecidableEq, Repr

def emptyMonState : MonState :=
  { vms := [], vmMetrics := [], systemAlerts := [], performanceMetrics := [], nextAlertId := 0 }

/-- Which persistence operations fail during a cycle; used to check that
per-instance failures are isolated.  The per-instance flags are keyed by
vmId. -/
structure FailureSchedule where
  findVMsFails : Bool
  saveMetricsFails : Nat → Bool
  findOneAlertFails : Nat → Bool
  saveAlertFails : Nat → Bool
  savePerfMetricsFails : Bool

def noFailures : FailureSchedule :=
  { findVMsFails := false
    saveMetricsFails := fun _ => false
    findOneAlertFails := fun _ => false
    saveAlertFails := fun _ => false
    savePerfMetricsFails := false }

/-- Replace the alert document with the given id (the effect of saving a
modified mongoose document, or of findByIdAndUpdate). -/
def replaceAlertById (alerts : List SystemAlertDoc) (updated : SystemAlertDoc) :
    List SystemAlertDoc :=
  alerts.map (fun a => if a.id == updated.id then updated else a)

/-- MonitoringService.createAlert.  The findOne dedup lookup matches on
vmId, on the top-level type path, on resolved being false and on
createdAt within the last five minutes.  On a hit the top-level count,
lastSeen and currentValue are updated in place; on a miss a new document
is created whose level and title receive the event severity and type and
whose metadata sub-document receives currentValue, count, resolved and
lastSeen; the remaining top-level fields take their schema defaults.  Any
persistence failure is caught and logged, leaving the store unchanged. -/
def createAlert (f : FailureSchedule) (st : MonState) (now : Int) (vmId : Nat)
    (alertData : AlertEvent) : MonState :=
  if f.findOneAlertFails vmId then st
  else
    match st.systemAlerts.find? (fun a =>
        a.vmId == some vmId && a.type == some alertData.type &&
        a.resolved == false && decide (now - 5 * 60 * 1000 ≤ a.createdAt)) with
    | some existingAlert =>
        if f.saveAlertFails vmId then st
        else
          let updated := { existingAlert with
            count := (if existingAlert.count = 0 then 1 else existingAlert.count) + 1
            lastSeen := now
            currentValue := some alertData.value }
          { st with systemAlerts := replaceAlertById st.systemAlerts updated }
    | none =>
        if f.saveAlertFails vmId then st
        else
          let alert : SystemAlertDoc :=
            { id := st.nextAlertId
              vmId := some vmId
              type := none
              severity := none
              level := alertData.severity
              title := alertData.type
              message := alertData.message
              currentValue := none
              count := 1
              resolved := false
              resolvedAt := none
              resolvedBy := none
              lastSeen := now
              metadataCurrentValue := some alertData.value
              metadataCount := some 1
              metadataResolved := some false
              metadataLastSeen := some now
              createdAt := now }
          { st with systemAlerts := st.systemAlerts ++ [alert]
                    nextAlertId := st.nextAlertId + 1 }

/-- MonitoringService.resolveAlert: findByIdAndUpdate with the new flag,
returning the updated document, or null when no document has the id.  The
update sets resolved, resolvedAt and resolvedBy unconditionally; it is not
scoped to unresolved documents. -/
def resolveAlert (st : MonState) (now : Int) (alertId : Nat) (resolvedBy : String) :
    Option SystemAlertDoc × MonState :=
  match st.systemAlerts.find? (fun a => a.id == alertId) with
  | none => (none, st)
  | some a =>
      let updated := { a with resolved := true, resolvedAt := some now,
                              resolvedBy := some resolvedBy }
      (some updated, { st with systemAlerts := replaceAlertById st.systemAlerts updated })

/-- MonitoringController.resolveAlert in controllers/vmController.js maps
a null service result to HTTP 404 and a document to HTTP 200. -/
def resolveAlertHttpStatus (serviceResult : Option SystemAlertDoc) : Nat :=
  if serviceResult.isNone then 404 else 200

/-- The scheduler state of the MonitoringService singleton: the isRunning
flag and the metricsInterval handle, together with the set of timers the
runtime currently has active (setInterval allocates a fresh handle,
clearInterval cancels one). -/
structure SchedulerState where
  isRunning : Bool
  metricsInterval : Option Nat
  activeTimers : List Nat
  nextTimerId : Nat
  deriving DecidableEq, Repr

/-- The state of the freshly constructed service: not running, no
interval handle, no active timer. -/
def initialScheduler : SchedulerState :=
  { isRunning := false, metricsInterval := none, activeTimers := [], nextTimerId := 0 }

/-- MonitoringService.startMonitoring: a logged no-op while already
running; otherwise sets isRunning and installs one 30-second interval
timer. -/
def startMonitoring (s : SchedulerState) : SchedulerState :=
  if s.isRunning then s
  else
    { isRunning := true
      metricsInterval := some s.nextTimerId
      activeTimers := s.nextTimerId :: s.activeTimers
      nextTimerId := s.nextTimerId + 1 }

/-- MonitoringService.stopMonitoring: a no-op while not running;
otherwise clears isRunning and cancels the interval timer if one is
held. -/
def stopMonitoring (s : SchedulerState) : SchedulerState :=
  if s.isRunning then
    { s with
      isRunning := false
      activeTimers := match s.metricsInterval with
        | some t => s.activeTimers.erase t
        | none => s.activeTimers
      metricsInterval := none }
  else s

/-- MonitoringService.saveVMMetrics: builds the VMMetrics document and
saves it; a save failure (including a schema validation failure) is
caught and logged as a warning, leaving the store unchanged. -/
def saveVMMetrics (f : FailureSchedule) (st : MonState) (now : Int) (vmId : Nat)
    (metrics : MetricsReading) : MonState :=
  let doc := toVMMetricsDoc vmId now metrics
  if f.saveMetricsFails vmId || !(vmMetricsDocValid doc) then st
  else { st with vmMetrics := st.vmMetrics ++ [doc] }

/-- The save loop at the end of MonitoringService.checkForAlerts: each
candidate event is fed to createAlert in order. -/
def saveAlertsFor (f : FailureSchedule) (st : MonState) (now : Int) (vmId : Nat)
    (events : List AlertEvent) : MonState :=
  events.foldl (fun s e => createAlert f s now vmId e) st

/-- Sum of a list of rationals. -/
def ratSum (l : List ℚ) : ℚ := l.foldr (· + ·) 0

/-- Arithmetic mean of a list of rationals; only applied to non-empty
lists (the Mongo avg operator over a non-empty group). -/
def ratAvg (l : List ℚ) : ℚ := ratSum l / (l.length : ℚ)

/-- Maximum of a list of rationals; only applied to non-empty lists. -/
def ratMax : List ℚ → ℚ
  | [] => 0
  | h :: t => t.foldl max h

/-- The 5-minute rolling aggregate row computed by collectSystemMetrics
over VMMetrics.  The avg operator is applied to cpuUsage and memoryUsage,
which every document carries; the networkIn, networkOut, responseTime and
errorRate paths referenced by the pipeline are not schema paths and are
never persisted, so their sums are 0 and their averages null. -/
structure RecentAggRow where
  avgCpuUsage : ℚ
  avgMemoryUsage : ℚ
  totalNetworkIn : ℚ
  totalNetworkOut : ℚ
  avgResponseTime : Option ℚ
  totalErrorRate : Option ℚ
  deriving DecidableEq, Repr

/-- MonitoringService.collectSystemMetrics: status counts, the 5-minute
rolling aggregate with null-to-zero defaulting, and the save of one
PerformanceMetrics document carrying the snapshot inside its metadata
sub-document.  A failed save propagates to the caller (the catch logs and
rethrows). -/
def collectSystemMetrics (f : FailureSchedule) (st : MonState) (now : Int) :
    Except Unit MonState :=
  let recent := st.vmMetrics.filter (fun m => decide (now - 5 * 60 * 1000 ≤ m.timestamp))
  let recentRow : Option RecentAggRow :=
    if recent.isEmpty then none
    else some
      { avgCpuUsage := ratAvg (recent.map (·.cpuUsage))
        avgMemoryUsage := ratAvg (recent.map (·.memoryUsage))
        totalNetworkIn := 0
        totalNetworkOut := 0
        avgResponseTime := none
        totalErrorRate := none }
  let snapshot : SystemMetricsSnapshot :=
    { totalVMs := st.vms.length
      runningVMs := (st.vms.filter (fun v => v.status == "running")).length
      stoppedVMs := (st.vms.filter (fun v => v.status == "stopped")).length
      errorVMs := (st.vms.filter (fun v => v.status == "error")).length
      systemLoad := (recentRow.map (·.avgCpuUsage)).getD 0
      memoryUtilization := (recentRow.map (·.avgMemoryUsage)).getD 0
      networkThroughputIn := (recentRow.map (·.totalNetworkIn)).getD 0
      networkThroughputOut := (recentRow.map (·.totalNetworkOut)).getD 0
      averageResponseTime := ((recentRow.map (·.avgResponseTime)).getD none).getD 0
      systemErrorRate := ((recentRow.map (·.totalErrorRate)).getD none).getD 0
      timestamp := now }
  if f.savePerfMetricsFails then Except.error ()
  else Except.ok { st with performanceMetrics := st.performanceMetrics ++
    [{ timestamp := now
       operation := "system_metrics_collection"
       durationMs := 1000
       success := true
       errorMessage := none
       category := none
       metadataCategory := some "system"
       metadataMetrics := some snapshot }] }

/-- The VM documents a cycle enumerates: status running, starting or
stopping. -/
def activeVMs (st : MonState) : List VMDoc :=
  st.vms.filter (fun vm =>
    vm.status == "running" || vm.status == "starting" || vm.status == "stopping")

/-- The outcome of one collection cycle: the final store and the vmIds
sampled, in order. -/
structure CollectResult where
  state : MonState
  sampledVMs : List Nat
  deriving Repr

/-- The per-instance body of the collection loop: generate a reading,
save it, evaluate thresholds and feed the candidates to the dedup
store. -/
def collectStep (f : FailureSchedule) (now : Int) (hourOfDay : Int)
    (draws : Nat → RandomDraws) (acc : CollectResult) (vm : VMDoc) : CollectResult :=
  let metrics := generateVMMetrics (draws vm.id) hourOfDay now vm
  let st1 := saveVMMetrics f acc.state now vm.id metrics
  let st2 := saveAlertsFor f st1 now vm.id (checkForAlerts metrics)
  { state := st2, sampledVMs := acc.sampledVMs ++ [vm.id] }

/-- MonitoringService.collectMetrics: enumerate the active instances,
run the per-instance body for each, then collect the system-wide
aggregate; any error reaching the cycle body (the initial find, or the
system aggregation save) is caught and logged at the cycle level. -/
def collectMetrics (f : FailureSchedule) (st : MonState) (now : Int) (hourOfDay : Int)
    (draws : Nat → RandomDraws) : CollectResult :=
  if f.findVMsFails then { state := st, sampledVMs := [] }
  else
    let afterLoop := (activeVMs st).foldl (collectStep f now hourOfDay draws)
      { state := st, sampledVMs := [] }
    match collectSystemMetrics f afterLoop.state now with
    | Except.ok st2 => { state := st2, sampledVMs := afterLoop.sampledVMs }
    | Except.error _ => afterLoop

/-- The failure classes the query operations surface.  castError models
the mongoose date cast failure raised when a query is issued with the
invalid Date produced by subtracting an undefined range duration. -/
inductive MonQueryError where
  | castError
  deriving DecidableEq, Repr

/-- The persistence calls a query operation attempts, for checking what
happens before an error surfaces. -/
inductive PersistOp where
  | findVMMetrics
  | findPerformanceMetrics
  | aggregateVMMetrics
  deriving DecidableEq, Repr

/-- Insert into a list ascending by the given integer key. -/
def insertAscBy (key : α → Int) (x : α) : List α → List α
  | [] => [x]
  | y :: ys => if key x ≤ key y then x :: y :: ys else y :: insertAscBy key x ys

/-- Sort a list ascending by the given integer key (the Mongo sort with
timestamp 1). -/
def sortAscBy (key : α → Int) (l : List α) : List α :=
  l.foldr (insertAscBy key) []

/-- MonitoringService.getVMMetrics.  With a known range the store is
filtered by vmId and lower time bound and sorted ascending by timestamp.
With an unknown range the lookup is undefined, the computed since bound
is an invalid Date, and the find is still issued with that bound; the
date cast fails inside the store call and the catch rethrows after
logging.  The second component records the persistence call attempted. -/
def getVMMetrics (st : MonState) (now : Int) (vmId : Nat) (timeRange : String) :
    Except MonQueryError (List VMMetricsDoc) × List PersistOp :=
  match timeRanges timeRange with
  | none => (Except.error MonQueryError.castError, [PersistOp.findVMMetrics])
  | some d =>
      (Except.ok (sortAscBy (·.timestamp) (st.vmMetrics.filter (fun m =>
         m.vmId == vmId && decide (now - d ≤ m.timestamp)))),
       [PersistOp.findVMMetrics])

/-- MonitoringService.getSystemMetrics: finds PerformanceMetrics whose
top-level category equals the string system and whose timestamp is in
range, sorted ascending; the unknown-range path is as in getVMMetrics. -/
def getSystemMetrics (st : MonState) (now : Int) (timeRange : String) :
    Except MonQueryError (List PerformanceMetricsDoc) × List PersistOp :=
  match timeRanges timeRange with
  | none => (Except.error MonQueryError.castError, [PersistOp.findPerformanceMetrics])
  | some d =>
      (Except.ok (sortAscBy (·.timestamp) (st.performanceMetrics.filter (fun p =>
         p.category == some "system" && decide (now - d ≤ p.timestamp)))),
       [PersistOp.findPerformanceMetrics])

/-- The single group row of the getPerformanceSummary aggregation.  The
networkIn, networkOut, responseTime and errorRate paths are not persisted
on VMMetrics documents (strict mode dropped them), so the sums are 0 and
the averages and maxima over them are null. -/
structure PerfSummary where
  avgCpuUsage : ℚ
  maxCpuUsage : ℚ
  avgMemoryUsage : ℚ
  maxMemoryUsage : ℚ
  avgDiskUsage : ℚ
  maxDiskUsage : ℚ
  totalNetworkIn : ℚ
  totalNetworkOut : ℚ
  avgResponseTime : Option ℚ
  maxResponseTime : Option ℚ
  avgErrorRate : Option ℚ
  maxErrorRate : Option ℚ
  dataPoints : Nat
  deriving DecidableEq, Repr

/-- The group stage of getPerformanceSummary over the in-range points. -/
def summarize (pts : List VMMetricsDoc) : PerfSummary :=
  { avgCpuUsage := ratAvg (pts.map (·.cpuUsage))
    maxCpuUsage := ratMax (pts.map (·.cpuUsage))
    avgMemoryUsage := ratAvg (pts.map (·.memoryUsage))
    maxMemoryUsage := ratMax (pts.map (·.memoryUsage))
    avgDiskUsage := ratAvg (pts.map (·.diskUsage))
    maxDiskUsage := ratMax (pts.map (·.diskUsage))
    totalNetworkIn := 0
    totalNetworkOut := 0
    avgResponseTime := none
    maxResponseTime := none
    avgErrorRate := none
    maxErrorRate := none
    dataPoints := pts.length }

/-- MonitoringService.getPerformanceSummary.  Over an empty in-range
point set the aggregate returns no row and the function returns the empty
object, modelled as none; over a non-empty set it returns the single
group row.  The unknown-range path is as in getVMMetrics. -/
def getPerformanceSummary (st : MonState) (now : Int) (timeRange : String) :
    Except MonQueryError (Option PerfSummary) × List PersistOp :=
  match timeRanges timeRange with
  | none => (Except.error MonQueryError.castError, [PersistOp.aggregateVMMetrics])
  | some d =>
      let pts := st.vmMetrics.filter (fun m => decide (now - d ≤ m.timestamp))
      (Except.ok (if pts.isEmpty then none else some (summarize pts)),
       [PersistOp.aggregateVMMetrics])

/-- Concrete inputs used to instantiate the verified properties. -/
def zeroDraws : RandomDraws :=
  { rBase := 0, rCpuJitter := 0, rMemJitter := 0, rDisk := 0, rNetIn := 0,
    rNetOut := 0, rDiskRead := 0, rDiskWrite := 0, rResp := 0, rErr := 0 }

/-- A running VM document. -/
def vmSample : VMDoc := { id := 1, name := "vm-a", status := "running", createdAtMs := 0 }

/-- A starting VM document. -/
def vmSampleB : VMDoc := { id := 2, name := "vm-b", status := "starting", createdAtMs := 0 }

/-- A store holding two active VMs and nothing else. -/
def twoVMState : MonState := { emptyMonState with vms := [vmSample, vmSampleB] }

/-- A schedule on which every persistence operation for the first VM
fails. -/
def failFirstVM : FailureSchedule :=
  { noFailures with
    saveMetricsFails := fun vmId => vmId == 1
    findOneAlertFails := fun vmId => vmId == 1
    saveAlertFails := fun vmId => vmId == 1 }

/-- A reading whose only interesting field is the CPU percentage. -/
def readingCpu (c : ℚ) : MetricsReading :=
  { cpuUsage := c, memoryUsage := 50, diskUsage := 40, networkIn := 0, networkOut := 0,
    diskRead := 0, diskWrite := 0, uptime := 0, status := "running", responseTime := 0,
    errorRate := 0 }

/-- The critical cpu_high event checkForAlerts builds for a CPU value. -/
def cpuCriticalEvent (c : ℚ) : AlertEvent :=
  { type := "cpu_high", severity := "critical", value := c
    message := "High CPU usage: " ++ toFixed 1 c ++ "%" }

/-- The warning cpu_high event checkForAlerts builds for a CPU value. -/
def cpuWarningEvent (c : ℚ) : AlertEvent :=
  { type := "cpu_high", severity := "warning", value := c
    message := "Elevated CPU usage: " ++ toFixed 1 c ++ "%" }

/-- A critical cpu_high candidate event with value 95. -/
def cpuCritical95 : AlertEvent :=
  { type := "cpu_high", severity := "critical", message := "High CPU usage: 95.0%",
    value := 95 }

/-- An unresolved alert document as a populated store entry. -/
def sampleAlert : SystemAlertDoc :=
  { id := 7, vmId := some 1, type := none, severity := none, level := "critical",
    title := "cpu_high", message := "High CPU usage: 95.0%", currentValue := none,
    count := 1, resolved := false, resolvedAt := none, resolvedBy := none, lastSeen := 0,
    metadataCurrentValue := none, metadataCount := some 1, metadataResolved := some false,
    metadataLastSeen := some 0, createdAt := 0 }

/-- The document update resolveAlert applies: resolved set with resolver
identity and time. -/
def markResolved (a : SystemAlertDoc) (now : Int) (resolvedBy : String) : SystemAlertDoc :=
  { a with resolved := true, resolvedAt := some now, resolvedBy := some resolvedBy }

/-- An already resolved alert document. -/
def resolvedAlertDoc : SystemAlertDoc := markResolved { sampleAlert with id := 8 } 5 "alice"

/-- A store holding exactly the unresolved sample alert. -/
def oneAlertState : MonState := { emptyMonState with systemAlerts := [sampleAlert] }

/-- A store holding exactly the resolved sample alert. -/
def resolvedAlertState : MonState := { emptyMonState with systemAlerts := [resolvedAlertDoc] }

/-- A PerformanceMetrics document as collectSystemMetrics writes it. -/
def perfDocSample : PerformanceMetricsDoc :=
  { timestamp := 0, operation := "system_metrics_collection", durationMs := 1000,
    success := true, errorMessage := none, category := none,
    metadataCategory := some "system", metadataMetrics := none }

/-- A store holding one system performance document. -/
def onePerfState : MonState := { emptyMonState with performanceMetrics := [perfDocSample] }

/-- A scheduler state that is already running with one active timer. -/
def runningScheduler : SchedulerState :=
  { isRunning := true, metricsInterval := some 0, activeTimers := [0], nextTimerId := 1 }

/-- C7: startMonitoring is a no-op while already running, two consecutive
calls from the fresh state leave exactly one active timer, stopMonitoring
cancels that timer, and stopMonitoring is a no-op while already
stopped. -/
theorem startStopMonitoring_idempotent :
    (∀ s : SchedulerState, s.isRunning = true → startMonitoring s = s) ∧
    (startMonitoring (startMonitoring initialScheduler)).activeTimers.length = 1 ∧
    (∀ s : SchedulerState, s.isRunning = false → stopMonitoring s = s) ∧
    (stopMonitoring (startMonitoring initialScheduler)).activeTimers = [] := by
  refine ⟨fun s h => ?_, by decide, fun s h => ?_, by decide⟩
  · simp [startMonitoring, h]
  · simp [stopMonitoring, h]

/-- Witness for C7 at concrete scheduler states. -/
theorem startStopMonitoring_idempotent_witness :
    runningScheduler.isRunning = true ∧
    startMonitoring runningScheduler = runningScheduler ∧
    initialScheduler.isRunning = false ∧
    stopMonitoring initialScheduler = initialScheduler :=
  ⟨rfl, startStopMonitoring_idempotent.1 runningScheduler rfl, rfl,
   startStopMonitoring_idempotent.2.2.1 initialScheduler rfl⟩

/-- C6: resolveAlert on an id with no matching document returns null and
leaves the store unchanged, and the controller maps that to 404; on a
matching document it sets resolved, resolvedAt and resolvedBy on that
document and returns it with 200. -/
theorem resolveAlert_notFound_and_update (st : MonState) (now : Int) (alertId : Nat)
    (rBy : String) :
    (st.systemAlerts.find? (fun a => a.id == alertId) = none →
      resolveAlert st now alertId rBy = (none, st) ∧
      resolveAlertHttpStatus (resolveAlert st now alertId rBy).1 = 404) ∧
    (∀ a, st.systemAlerts.find? (fun x => x.id == alertId) = some a →
      (resolveAlert st now alertId rBy).1 = some (markResolved a now rBy) ∧
      (resolveAlert st now alertId rBy).2 =
        { st with systemAlerts := replaceAlertById st.systemAlerts (markResolved a now rBy) } ∧
      resolveAlertHttpStatus (resolveAlert st now alertId rBy).1 = 200) := by
  constructor
  · intro h
    simp [resolveAlert, h, resolveAlertHttpStatus]
  · intro a h
    simp [resolveAlert, h, resolveAlertHttpStatus, markResolved]

/-- Witness for C6: an unknown id leaves the one-alert store untouched
with 404, a known id flips the record with 200. -/
theorem resolveAlert_notFound_and_update_witness :
    (resolveAlert oneAlertState 10 99 "ops" = (none, oneAlertState) ∧
     resolveAlertHttpStatus (resolveAlert oneAlertState 10 99 "ops").1 = 404) ∧
    (resolveAlert oneAlertState 10 7 "ops").1 = some (markResolved sampleAlert 10 "ops") :=
  ⟨(resolveAlert_notFound_and_update oneAlertState 10 99 "ops").1 (by decide),
   ((resolveAlert_notFound_and_update oneAlertState 10 7 "ops").2 sampleAlert (by decide)).1⟩

/-- C9: resolveAlert is not scoped to unresolved documents: on a document
whose resolved flag is already true it still returns the updated document
(mapped to 200, not 404) and overwrites resolvedAt and resolvedBy with the
new values. -/
theorem resolveAlert_overwrites_resolved (st : MonState) (now : Int) (alertId : Nat)
    (rBy : String) (a : SystemAlertDoc)
    (hfind : st.systemAlerts.find? (fun x => x.id == alertId) = some a)
    (_hres : a.resolved = true) :
    (resolveAlert st now alertId rBy).1 = some (markResolved a now rBy) ∧
    resolveAlertHttpStatus (resolveAlert st now alertId rBy).1 = 200 := by
  simp [resolveAlert, hfind, resolveAlertHttpStatus, markResolved]

/-- C2: one reading yields exactly one critical cpu_high event when the
CPU percentage is in the band above 90 and at most 100, exactly one
warning cpu_high event in the band above 75 and at most 90, and none at
or below 75; the bands are mutually exclusive. -/
theorem checkForAlerts_cpu_bands (m : MetricsReading) :
    (90 < m.cpuUsage → m.cpuUsage ≤ 100 →
      cpuHighEvents m = [cpuCriticalEvent m.cpuUsage]) ∧
    (75 < m.cpuUsage → m.cpuUsage ≤ 90 →
      cpuHighEvents m = [cpuWarningEvent m.cpuUsage]) ∧
    (m.cpuUsage ≤ 75 → cpuHighEvents m = []) := by
  refine ⟨fun h1 _ => ?_, fun h1 h2 => ?_, fun h => ?_⟩
  · simp only [cpuHighEvents, checkForAlerts, List.filter_append]
    rw [if_pos h1]
    split_ifs <;> simp [cpuCriticalEvent]
  · simp only [cpuHighEvents, checkForAlerts, List.filter_append]
    rw [if_neg (not_lt.mpr h2), if_pos h1]
    split_ifs <;> simp [cpuWarningEvent]
  · simp only [cpuHighEvents, checkForAlerts, List.filter_append]
    rw [if_neg (not_lt.mpr (h.trans (by norm_num))), if_neg (not_lt.mpr h)]
    split_ifs <;> simp

/-- Witness for C2 at a reading with CPU at 95 percent. -/
theorem checkForAlerts_cpu_bands_witness :
    cpuHighEvents (readingCpu 95) = [cpuCriticalEvent 95] := by
  have h := (checkForAlerts_cpu_bands (readingCpu 95)).1 (by norm_num [readingCpu])
    (by norm_num [readingCpu])
  simpa [readingCpu] using h

/-- C1: two identical cpu_high events for the same instance one minute
apart both take the creation branch of createAlert: the dedup findOne
matches on the top-level type path, which the creation branch never
writes (the event type goes into title), so the store ends with two
documents of count 1 instead of one document of count 2. -/
theorem createAlert_duplicate_within_window :
    ((createAlert noFailures (createAlert noFailures emptyMonState 0 1 cpuCritical95)
        60000 1 cpuCritical95).systemAlerts.map (fun a => (a.type, a.title, a.count))) =
      [(none, "cpu_high", 1), (none, "cpu_high", 1)] := by decide

/-- C3 counterexample: on the unknown range keyword 2h, getVMMetrics does
not reject with a validation error before any side effect; it issues the
store find with the invalid date bound and surfaces the date cast
error. -/
theorem getVMMetrics_unknown_range_queries_store :
    getVMMetrics emptyMonState 0 1 "2h" =
      (Except.error MonQueryError.castError, [PersistOp.findVMMetrics]) := rfl

/-- C3 amended: for every unknown time range, each of the three query
operations still attempts its persistence call with the invalid bound and
fails with a cast error rather than silently defaulting; no validation
rejection happens before the store is consulted. -/
theorem unknown_range_cast_error_after_query (st : MonState) (now : Int) (vmId : Nat)
    (timeRange : String) (h : timeRanges timeRange = none) :
    getVMMetrics st now vmId timeRange =
      (Except.error MonQueryError.castError, [PersistOp.findVMMetrics]) ∧
    getSystemMetrics st now timeRange =
      (Except.error MonQueryError.castError, [PersistOp.findPerformanceMetrics]) ∧
    getPerformanceSummary st now timeRange =
      (Except.error MonQueryError.castError, [PersistOp.aggregateVMMetrics]) := by
  refine ⟨?_, ?_, ?_⟩
  · unfold getVMMetrics; rw [h]
  · unfold getSystemMetrics; rw [h]
  · unfold getPerformanceSummary; rw [h]

/-- Witness for C3 amended at the unknown keyword 2h. -/
theorem unknown_range_cast_error_after_query_witness :
    getVMMetrics emptyMonState 5 1 "2h" =
      (Except.error MonQueryError.castError, [PersistOp.findVMMetrics]) ∧
    getSystemMetrics emptyMonState 5 "2h" =
      (Except.error MonQueryError.castError, [PersistOp.findPerformanceMetrics]) ∧
    getPerformanceSummary emptyMonState 5 "2h" =
      (Except.error MonQueryError.castError, [PersistOp.aggregateVMMetrics]) :=
  unknown_range_cast_error_after_query emptyMonState 5 1 "2h" (by decide)

/-- C4 counterexample: over an empty point set the performance summary is
the bare empty object carrying no dataPoints field at all (modelled as
none), not a zeroed summary with dataPoints equal to 0. -/
theorem getPerformanceSummary_empty_is_bare_object :
    getPerformanceSummary emptyMonState 0 "1h" =
      (Except.ok none, [PersistOp.aggregateVMMetrics]) := rfl

/-- C4 amended: with a valid range and no points in range, the operations
return without error; getPerformanceSummary returns the empty object with
no dataPoints field (consumers coalesce the missing field to 0) and
getSystemMetrics returns the empty list. -/
theorem empty_range_zero_results (st : MonState) (now : Int) (timeRange : String) (d : Int)
    (h : timeRanges timeRange = some d)
    (hvm : st.vmMetrics.filter (fun m => decide (now - d ≤ m.timestamp)) = [])
    (hperf : st.performanceMetrics.filter (fun p =>
        p.category == some "system" && decide (now - d ≤ p.timestamp)) = []) :
    getPerformanceSummary st now timeRange = (Except.ok none, [PersistOp.aggregateVMMetrics]) ∧
    getSystemMetrics st now timeRange =
      (Except.ok [], [PersistOp.findPerformanceMetrics]) := by
  constructor
  · simp only [getPerformanceSummary, h]
    rw [hvm]; rfl
  · simp only [getSystemMetrics, h]
    rw [hperf]; rfl

/-- Witness for C4 amended at the empty store and the 1h range. -/
theorem empty_range_zero_results_witness :
    getPerformanceSummary emptyMonState 0 "1h" =
      (Except.ok none, [PersistOp.aggregateVMMetrics]) ∧
    getSystemMetrics emptyMonState 0 "1h" =
      (Except.ok [], [PersistOp.findPerformanceMetrics]) :=
  empty_range_zero_results emptyMonState 0 "1h" (60 * 60 * 1000) (by decide) rfl rfl

/-- C5: with every random draw at 0, a valid outcome, during business
hours, the generated reading has cpuUsage -10 and memoryUsage -15/2,
outside [0,100]: the generator clamps the percentages only from above,
while the VMMetrics schema requires at least 0, so saving such a reading
fails the schema validation of the code itself. -/
theorem generateVMMetrics_negative_percentages :
    zeroDraws.valid ∧
    (generateVMMetrics zeroDraws 12 0 vmSample).cpuUsage = -10 ∧
    (generateVMMetrics zeroDraws 12 0 vmSample).memoryUsage = -(15/2) ∧
    vmMetricsDocValid (toVMMetricsDoc 1 0 (generateVMMetrics zeroDraws 12 0 vmSample)) =
      false := by
  have hcpu : (generateVMMetrics zeroDraws 12 0 vmSample).cpuUsage = -10 := by
    simp only [generateVMMetrics, zeroDraws, vmSample]
    norm_num [min_def]
  have hmem : (generateVMMetrics zeroDraws 12 0 vmSample).memoryUsage = -(15/2) := by
    simp only [generateVMMetrics, zeroDraws, vmSample]
    norm_num [min_def]
  refine ⟨?_, hcpu, hmem, ?_⟩
  · unfold RandomDraws.valid zeroDraws
    norm_num
  · have hneg : ¬ (0 : ℚ) ≤ -10 := by norm_num
    simp only [vmMetricsDocValid, toVMMetricsDoc, hcpu]
    simp [hneg]

/-- The collection loop appends every enumerated vmId to the sampled list
no matter what the per-instance persistence outcomes were. -/
theorem foldl_collectStep_sampledVMs (f : FailureSchedule) (now hourOfDay : Int)
    (draws : Nat → RandomDraws) (l : List VMDoc) (acc : CollectResult) :
    (l.foldl (collectStep f now hourOfDay draws) acc).sampledVMs =
      acc.sampledVMs ++ l.map (fun vm => vm.id) := by
  induction l generalizing acc with
  | nil => simp
  | cons vm rest ih =>
      rw [List.foldl_cons, ih]
      simp [collectStep]

/-- C8: within one cycle, whatever per-instance persistence operations
fail (metric saves, alert lookups, alert saves) and whether or not the
final system aggregation save fails, every active instance is still
sampled and processed: the per-instance failures are caught inside
saveVMMetrics and createAlert and never abort the loop. -/
theorem collectMetrics_isolates_per_instance_failures (f : FailureSchedule) (st : MonState)
    (now hourOfDay : Int) (draws : Nat → RandomDraws) (h : f.findVMsFails = false) :
    (collectMetrics f st now hourOfDay draws).sampledVMs =
      (activeVMs st).map (fun vm => vm.id) := by
  simp only [collectMetrics, h, Bool.false_eq_true, if_false]
  split
  · simp [foldl_collectStep_sampledVMs]
  · simp [foldl_collectStep_sampledVMs]

/-- Witness for C8: with every persistence operation for the first VM
failing, both active VMs are still sampled in order. -/
theorem collectMetrics_isolates_witness :
    (collectMetrics failFirstVM twoVMState 0 12 (fun _ => zeroDraws)).sampledVMs = [1, 2] := by
  have h := collectMetrics_isolates_per_instance_failures failFirstVM twoVMState 0 12
    (fun _ => zeroDraws) rfl
  rw [h]
  rfl

/-- C10: with a valid range, getSystemMetrics returns the empty list over
every store whose PerformanceMetrics documents lack the top-level
category path; the second conjunct shows collectSystemMetrics, the only
writer of such documents, preserves that invariant because it stores the
system marker inside the metadata sub-document only. -/
theorem getSystemMetrics_always_empty (st : MonState) (now : Int) (timeRange : String)
    (d : Int) (h : timeRanges timeRange = some d)
    (hinv : ∀ p ∈ st.performanceMetrics, p.category = none) :
    getSystemMetrics st now timeRange = (Except.ok [], [PersistOp.findPerformanceMetrics]) ∧
    (∀ (f : FailureSchedule) (st2 : MonState) (now2 : Int) (st3 : MonState),
      collectSystemMetrics f st2 now2 = Except.ok st3 →
      (∀ p ∈ st2.performanceMetrics, p.category = none) →
      ∀ p ∈ st3.performanceMetrics, p.category = none) := by
  constructor
  · have hfil : st.performanceMetrics.filter (fun p =>
        p.category == some "system" && decide (now - d ≤ p.timestamp)) = [] := by
      rw [List.filter_eq_nil_iff]
      intro p hp
      simp [hinv p hp]
    simp only [getSystemMetrics, h]
    rw [hfil]; rfl
  · intro f st2 now2 st3 hok hcat p hp
    unfold collectSystemMetrics at hok
    split at hok
    · exact Except.noConfusion hok
    · cases hok
      rcases List.mem_append.mp hp with h1 | h2
      · exact hcat p h1
      · rw [List.mem_singleton] at h2
        subst h2
        rfl

/-- Witness for C10 at a store holding one system performance document. -/
theorem getSystemMetrics_always_empty_witness :
    getSystemMetrics onePerfState 0 "1h" =
      (Except.ok [], [PersistOp.findPerformanceMetrics]) := by
  have hcat : ∀ p ∈ onePerfState.performanceMetrics, p.category = none := by
    intro p hp
    have hp2 : p ∈ [perfDocSample] := hp
    rw [List.mem_singleton] at hp2
    subst hp2
    rfl
  exact (getSystemMetrics_always_empty onePerfState 0 "1h" (60 * 60 * 1000)
    (by decide) hcat).1

/-- Witness for C9: resolving the already resolved alert again replaces
resolver and time. -/
theorem resolveAlert_overwrites_resolved_witness :
    (resolveAlert resolvedAlertState 99 8 "bob").1 =
      some (markResolved resolvedAlertDoc 99 "bob") ∧
    resolveAlertHttpStatus (resolveAlert resolvedAlertState 99 8 "bob").1 = 200 :=
  resolveAlert_overwrites_resolved resolvedAlertState 99 8 "bob" resolvedAlertDoc
    (by decide) (by decide)

end AccBackend
